import Mathlib

/-
Shallow embedding of the URL-shortener core from src/app.py (Flask + sqlite).

The two sqlite tables (urls, daily_stats) become lists of rows inside a `DB`
value; each `conn.commit()` is a transition on that observable value.  The
module-level `threading.Lock` is non-reentrant: acquiring it while it is
already held by the same thread blocks forever, which we model with the
`Outcome.blocked` result.  `update_daily_stats` takes the lock itself and is
called from `shorten_url` / `redirect_to_url` while they already hold it.

`random.choice`-based code generation is modelled by an oracle
`gen : Nat → String` giving the result of the k-th call to
`generate_short_code()`; the process-local clock is modelled by the `today`
and `now` parameters.  Cross-process interference on the shared sqlite file
(the threading lock does not serialize other processes) is modelled by an
optional external row `ext` committed between the uniqueness check and the
INSERT; the INSERT then hits the UNIQUE constraint and raises, landing in the
generic `except Exception` handler of the route.
-/

namespace Shortener

/-- A row of the `urls` table (id INTEGER PRIMARY KEY AUTOINCREMENT,
short_code TEXT UNIQUE, original_url TEXT, clicks INTEGER DEFAULT 0,
created_at TIMESTAMP DEFAULT CURRENT_TIMESTAMP). -/
structure UrlRow where
  id : Nat
  short_code : String
  original_url : String
  clicks : Nat
  created_at : Nat
deriving DecidableEq

/-- A row of the `daily_stats` table (date TEXT PRIMARY KEY,
urls_created INTEGER DEFAULT 0, total_clicks INTEGER DEFAULT 0). -/
structure DailyRow where
  date : String
  urls_created : Nat
  total_clicks : Nat
deriving DecidableEq

/-- The committed state of urls.db: both tables plus the AUTOINCREMENT
sequence for `urls.id`. -/
structure DB where
  urls : List UrlRow
  daily : List DailyRow
  nextId : Nat
deriving DecidableEq

/-- Result of running a request handler: either it returns a value, or it
blocks forever (acquiring the already-held non-reentrant lock). -/
inductive Outcome (A : Type) where
  | done : A → Outcome A
  | blocked : Outcome A
deriving DecidableEq

/-- SQL statements executed against the data tables, in order, used to state
claims of the form "fails before any storage access". -/
inductive StoreOp where
  | selectUrl (code : String)
  | insertUrl (code : String)
  | updateClicks (code : String)
  | commitW
  | dailyWrite (d : String)
deriving DecidableEq

/-- SELECT short_code FROM urls WHERE short_code = ? (as a Bool). -/
def dbExists (db : DB) (code : String) : Bool :=
  db.urls.any (fun r => r.short_code == code)

/-- SELECT original_url, clicks FROM urls WHERE short_code = ?. -/
def dbLookup (db : DB) (code : String) : Option UrlRow :=
  db.urls.find? (fun r => r.short_code == code)

/-- INSERT INTO urls (short_code, original_url) VALUES (?, ?) with the
DEFAULT values clicks=0, created_at=now and the AUTOINCREMENT id. -/
def dbInsertRow (db : DB) (code url : String) (now : Nat) : DB :=
  { urls := db.urls ++ [⟨db.nextId, code, url, 0, now⟩]
  , daily := db.daily
  , nextId := db.nextId + 1 }

/-- UPDATE urls SET clicks = clicks + 1 WHERE short_code = ?. -/
def dbIncrClick (db : DB) (code : String) : DB :=
  { db with urls := db.urls.map (fun r =>
      if r.short_code = code then { r with clicks := r.clicks + 1 } else r) }

/-- Python str.strip() whitespace (ASCII part): space, tab, newline, CR,
vertical tab, form feed. -/
def pyIsSpace (c : Char) : Bool :=
  c == ' ' || c == '\t' || c == '\n' || c == '\r' ||
  c == Char.ofNat 11 || c == Char.ofNat 12

/-- Python (data.get(...) or '').strip(). -/
def pyStrip (s : String) : String :=
  String.mk (((s.data.dropWhile pyIsSpace).reverse.dropWhile pyIsSpace).reverse)

def asciiLower (c : Char) : Bool := 'a' ≤ c && c ≤ 'z'

def asciiUpper (c : Char) : Bool := 'A' ≤ c && c ≤ 'Z'

def asciiAlpha (c : Char) : Bool := asciiLower c || asciiUpper c

def asciiDigit (c : Char) : Bool := '0' ≤ c && c ≤ '9'

/-- urllib.parse scheme_chars: letters, digits and +-. -/
def schemeChar (c : Char) : Bool :=
  asciiAlpha c || asciiDigit c || c == '+' || c == '-' || c == '.'

/-- ASCII lower-casing of one character (str.lower on the scheme). -/
def lowerChar (c : Char) : Char :=
  if asciiUpper c then Char.ofNat (c.toNat + 32) else c

/-- urllib.parse.urlparse restricted to the (scheme, netloc) components used
by is_valid_url.  Follows CPython urlsplit: strip leading C0-control/space,
remove tab/CR/LF everywhere, split the scheme at the first colon when the
prefix is a well-formed scheme (lower-casing it), and read netloc after a
leading "//" up to the first of "/?#".  `none` models the ValueError raised
on unbalanced IPv6 brackets in the netloc. -/
def pyUrlsplit (s : String) : Option (String × String) :=
  let cs0 := s.data.dropWhile (fun c => c.toNat ≤ 32)
  let cs := cs0.filter (fun c => !(c == '\t') && !(c == '\r') && !(c == '\n'))
  let pr : List Char × List Char :=
    match cs.findIdx? (fun c => c == ':') with
    | some i =>
      let pre := cs.take i
      if !pre.isEmpty && asciiAlpha (pre.headD ' ') && pre.all schemeChar
      then (pre.map lowerChar, cs.drop (i + 1))
      else (([] : List Char), cs)
    | none => (([] : List Char), cs)
  match pr.2 with
  | '/' :: '/' :: r =>
    let netloc := r.takeWhile (fun c => !(c == '/') && !(c == '?') && !(c == '#'))
    if netloc.contains '[' != netloc.contains ']' then none
    else some (String.mk pr.1, String.mk netloc)
  | _ => some (String.mk pr.1, "")

/-- def is_valid_url(url): truthy scheme and netloc, scheme in [http, https];
any parse exception yields False. -/
def is_valid_url (url : String) : Bool :=
  match pyUrlsplit url with
  | none => false
  | some (scheme, netloc) =>
    (!(scheme == "") && !(netloc == "")) && (scheme == "http" || scheme == "https")

/-- Character class of the pattern [a-zA-Z0-9_-]. -/
def codeChar (c : Char) : Bool :=
  asciiAlpha c || asciiDigit c || c == '_' || c == '-'

/-- Python re.match for the anchored pattern on short codes.  Python `$`
(without MULTILINE) also matches just before one trailing newline. -/
def pyMatchCodeRegex (s : String) : Bool :=
  (!s.data.isEmpty && s.data.all codeChar) ||
  (s.data.getLast? == some '\n' && !s.data.dropLast.isEmpty &&
    s.data.dropLast.all codeChar)

/-- def update_daily_stats(urls_created=0, clicks=0): runs `with lock:`; the
lock is non-reentrant, so if the caller already holds it the acquire blocks
forever.  Otherwise upsert today's daily_stats row and commit. -/
def update_daily_stats (lockHeldByCaller : Bool) (today : String)
    (urls_created clicks : Nat) (db : DB) : Outcome DB :=
  if lockHeldByCaller then Outcome.blocked
  else
    match db.daily.find? (fun r => r.date == today) with
    | some _ => Outcome.done { db with daily := db.daily.map (fun r =>
        if r.date = today then
          { r with urls_created := r.urls_created + urls_created
                 , total_clicks := r.total_clicks + clicks }
        else r) }
    | none => Outcome.done { db with daily := db.daily ++ [⟨today, urls_created, clicks⟩] }

/-- Result of POST /api/shorten, one constructor per return statement. -/
inductive ShortenResult where
  | success (short_code original_url : String)
  | errUrlRequired
  | errInvalidUrl
  | errInvalidCodeFormat
  | errCodeTooLong
  | errCodeTaken
  | errExhausted
  | errServer (detail : String)
deriving DecidableEq

/-- HTTP status attached to each return of shorten_url in the source. -/
def ShortenResult.httpStatus : ShortenResult → Nat
  | .success _ _ => 200
  | .errUrlRequired => 400
  | .errInvalidUrl => 400
  | .errInvalidCodeFormat => 400
  | .errCodeTooLong => 400
  | .errCodeTaken => 400
  | .errExhausted => 500
  | .errServer _ => 500

/-- The literal error string of each jsonify return in the source; the
generic handler interpolates str(e) into its message. -/
def ShortenResult.errorMessage : ShortenResult → Option String
  | .success _ _ => none
  | .errUrlRequired => some "URL is required"
  | .errInvalidUrl => some "Invalid URL format. Must start with http:// or https://"
  | .errInvalidCodeFormat =>
      some "Custom code can only contain letters, numbers, hyphens, and underscores"
  | .errCodeTooLong => some "Custom code must be 20 characters or less"
  | .errCodeTaken => some "Custom code already exists. Please choose a different one."
  | .errExhausted => some "Unable to generate unique short code. Please try again."
  | .errServer d => some ("Server error: " ++ d)

/-- What sqlite3.IntegrityError carries when the UNIQUE constraint on
urls.short_code fires. -/
def dupMsg : String := "UNIQUE constraint failed: urls.short_code"

/-- Full observable effect of one request: result (or blocked), the committed
database, and the data-table statements that were executed. -/
structure ShortenOut where
  result : Outcome ShortenResult
  db : DB
  ops : List StoreOp
deriving DecidableEq

/-- The `while attempts < 10` retry loop of the random path, with
fuel = 10 - attempts and `a` the index of the next generate_short_code call.
Returns the first generated code whose uniqueness check finds no row, or
`none` after the budget is consumed, together with the SELECTs issued. -/
def allocLoopF (gen : Nat → String) (db : DB) (a fuel : Nat) :
    Option String × List StoreOp :=
  match fuel with
  | 0 => (none, [])
  | Nat.succ fuel =>
    let c := gen a
    if dbExists db c = true then
      let r := allocLoopF gen db (a + 1) fuel
      (r.1, StoreOp.selectUrl c :: r.2)
    else (some c, [StoreOp.selectUrl c])

/-- A row committed by a concurrent process in the window between this
request's uniqueness check and its INSERT (subject to the same UNIQUE
constraint on the sqlite side). -/
def extApply (ext : Option (String × String)) (now : Nat) (db : DB) : DB :=
  match ext with
  | none => db
  | some (c, u) => if dbExists db c = true then db else dbInsertRow db c u now

/-- Lines 166-189 of app.py: the INSERT of the chosen code, the commit, the
call to update_daily_stats(urls_created=1) while still holding the lock, and
the success return.  An IntegrityError from the UNIQUE constraint propagates
to the generic `except Exception` handler, which returns a 500 with str(e)
interpolated. -/
def insertStep (today : String) (now : Nat) (ext : Option (String × String))
    (code url : String) (db : DB) (ops : List StoreOp) : ShortenOut :=
  let db1 := extApply ext now db
  if dbExists db1 code = true then
    ⟨Outcome.done (ShortenResult.errServer dupMsg), db1, ops ++ [StoreOp.insertUrl code]⟩
  else
    let db2 := dbInsertRow db1 code url now
    match update_daily_stats true today 1 0 db2 with
    | Outcome.done db3 =>
        ⟨Outcome.done (ShortenResult.success code url), db3,
          ops ++ [StoreOp.insertUrl code, StoreOp.commitW, StoreOp.dailyWrite today]⟩
    | Outcome.blocked =>
        ⟨Outcome.blocked, db2, ops ++ [StoreOp.insertUrl code, StoreOp.commitW]⟩

/-- POST /api/shorten (def shorten_url, app.py lines 109-193): strip the
inputs, validate the URL, take the lock, then either the custom-code path
(format, length, uniqueness checks) or the random path (10-attempt loop),
then the INSERT step. -/
def shorten_url (gen : Nat → String) (today : String) (now : Nat)
    (ext : Option (String × String)) (url_raw custom_raw : String) (db : DB) :
    ShortenOut :=
  if pyStrip url_raw = "" then ⟨Outcome.done ShortenResult.errUrlRequired, db, []⟩
  else if is_valid_url (pyStrip url_raw) = false then
    ⟨Outcome.done ShortenResult.errInvalidUrl, db, []⟩
  else if pyStrip custom_raw ≠ "" then
    if pyMatchCodeRegex (pyStrip custom_raw) = false then
      ⟨Outcome.done ShortenResult.errInvalidCodeFormat, db, []⟩
    else if (pyStrip custom_raw).length > 20 then
      ⟨Outcome.done ShortenResult.errCodeTooLong, db, []⟩
    else if dbExists db (pyStrip custom_raw) = true then
      ⟨Outcome.done ShortenResult.errCodeTaken, db, [StoreOp.selectUrl (pyStrip custom_raw)]⟩
    else
      insertStep today now ext (pyStrip custom_raw) (pyStrip url_raw) db
        [StoreOp.selectUrl (pyStrip custom_raw)]
  else
    match allocLoopF gen db 0 10 with
    | (none, ops) => ⟨Outcome.done ShortenResult.errExhausted, db, ops⟩
    | (some code, ops) => insertStep today now ext code (pyStrip url_raw) db ops

/-- Result of GET /<short_code>, one constructor per return statement. -/
inductive RedirectResult where
  | invalidFormat
  | notFound
  | redirectTo (url : String)
  | serverError (detail : String)
deriving DecidableEq

/-- HTTP status attached to each return of redirect_to_url. -/
def RedirectResult.httpStatus : RedirectResult → Nat
  | .invalidFormat => 400
  | .notFound => 404
  | .redirectTo _ => 302
  | .serverError _ => 500

structure RedirectOut where
  result : Outcome RedirectResult
  db : DB
  ops : List StoreOp
deriving DecidableEq

/-- GET /<short_code> (def redirect_to_url, app.py lines 281-325): validate
the code format before touching storage, take the lock, look the code up,
increment clicks and commit, then call update_daily_stats(clicks=1) while
still holding the lock. -/
def redirect_to_url (today : String) (short_code : String) (db : DB) :
    RedirectOut :=
  if pyMatchCodeRegex short_code = false then
    ⟨Outcome.done RedirectResult.invalidFormat, db, []⟩
  else
    match dbLookup db short_code with
    | none => ⟨Outcome.done RedirectResult.notFound, db, [StoreOp.selectUrl short_code]⟩
    | some r =>
      let db1 := dbIncrClick db short_code
      match update_daily_stats true today 0 1 db1 with
      | Outcome.done db2 =>
          ⟨Outcome.done (RedirectResult.redirectTo r.original_url), db2,
            [StoreOp.selectUrl short_code, StoreOp.updateClicks short_code,
             StoreOp.commitW, StoreOp.dailyWrite today]⟩
      | Outcome.blocked =>
          ⟨Outcome.blocked, db1,
            [StoreOp.selectUrl short_code, StoreOp.updateClicks short_code,
             StoreOp.commitW]⟩

/-- The four fields returned by GET /api/stats. -/
structure StatsOut where
  total_urls : Nat
  total_clicks : Nat
  today_urls : Nat
  today_clicks : Nat
deriving DecidableEq

/-- GET /api/stats (def get_stats): COUNT(*) and COALESCE(SUM(clicks),0)
over urls, plus today's daily_stats row (zeros when absent).  Note the
source takes no lock here. -/
def get_stats (today : String) (db : DB) : StatsOut :=
  let td := db.daily.find? (fun r => r.date == today)
  { total_urls := db.urls.length
  , total_clicks := (db.urls.map (fun r => r.clicks)).sum
  , today_urls := (td.map (fun r => r.urls_created)).getD 0
  , today_clicks := (td.map (fun r => r.total_clicks)).getD 0 }

/-- The ORDER BY created_at DESC comparison: nonincreasing created_at. -/
abbrev sortedByTimeDesc (l : List UrlRow) : Prop :=
  List.Pairwise (fun a b => b.created_at ≤ a.created_at) l

/-- GET /api/recent runs SELECT ... ORDER BY created_at DESC LIMIT 10.  SQL
leaves the relative order of rows with equal created_at unspecified, so the
query's semantics is relational: an output is admissible iff it is the first
10 rows of some permutation of the table that is sorted by created_at
descending. -/
def recentAdmissible (db : DB) (out : List UrlRow) : Prop :=
  ∃ perm : List UrlRow, db.urls.Perm perm ∧ sortedByTimeDesc perm ∧ out = perm.take 10

/-- DELETE /api/clear (def clear_all_data): under the lock, DELETE FROM urls
and DELETE FROM daily_stats, one commit.  The AUTOINCREMENT sequence in
sqlite_sequence is not reset by DELETE. -/
def clear_all_data (db : DB) : Outcome String × DB :=
  (Outcome.done "All data cleared successfully",
   { urls := [], daily := [], nextId := db.nextId })

/-- Sum of clicks over the urls table. -/
def sumClicks (db : DB) : Nat := (db.urls.map (fun r => r.clicks)).sum

/-- Sum of total_clicks over the daily_stats table. -/
def sumDailyClicks (db : DB) : Nat := (db.daily.map (fun r => r.total_clicks)).sum

/-- Sum of urls_created over the daily_stats table. -/
def sumDailyUrls (db : DB) : Nat := (db.daily.map (fun r => r.urls_created)).sum

/-- Empty database right after init_db. -/
def db0 : DB := ⟨[], [], 1⟩

/-- Oracle for generate_short_code that always returns the same candidate. -/
def gen0 : Nat → String := fun _ => "abc123"

/-- A store holding one mapping abc -> https://target.example. -/
def rowAbc : UrlRow := ⟨1, "abc", "https://target.example", 0, 100⟩

def dbAbc : DB := ⟨[rowAbc], [], 2⟩

/-- A store in which gen0's only candidate is already taken. -/
def dbTaken : DB := ⟨[⟨1, "abc123", "https://t.example", 0, 10⟩], [], 2⟩

/-- Two mappings created one after the other within the same timestamp
second (CURRENT_TIMESTAMP has second resolution). -/
def rowT1 : UrlRow := ⟨1, "a1", "https://a.example", 0, 50⟩

def rowT2 : UrlRow := ⟨2, "a2", "https://b.example", 0, 50⟩

def dbTie : DB := ⟨[rowT1, rowT2], [], 3⟩


/-- A URL accepted by is_valid_url is in particular not the empty string. -/
lemma is_valid_url_ne_empty (u : String) (h : is_valid_url u = true) : u ≠ "" := by
  intro he
  rw [he] at h
  exact absurd h (by decide)

/-- Characterization of is_valid_url in terms of the parsed components:
it accepts exactly the strings that parse with scheme http or https and a
non-empty network location. -/
lemma is_valid_url_spec (u sch nl : String) (h : pyUrlsplit u = some (sch, nl)) :
    is_valid_url u = true ↔ ((sch = "http" ∨ sch = "https") ∧ nl ≠ "") := by
  unfold is_valid_url
  rw [h]
  simp only [Bool.and_eq_true, Bool.or_eq_true, Bool.not_eq_true', beq_eq_false_iff_ne,
    beq_iff_eq]
  constructor
  · rintro ⟨⟨_, h2⟩, h3⟩
    exact ⟨h3, h2⟩
  · rintro ⟨h3, h2⟩
    refine ⟨⟨?_, h2⟩, h3⟩
    rcases h3 with rfl | rfl <;> decide

/-- A request whose URL fails validation is rejected before any statement
touches the data tables, leaving the store unchanged. -/
lemma shorten_invalid_url_before_storage (gen : Nat → String) (today : String)
    (now : Nat) (ext : Option (String × String)) (url custom : String) (db : DB)
    (h : is_valid_url (pyStrip url) = false) :
    (shorten_url gen today now ext url custom db).db = db ∧
    (shorten_url gen today now ext url custom db).ops = [] ∧
    ((shorten_url gen today now ext url custom db).result =
        Outcome.done ShortenResult.errUrlRequired ∨
     (shorten_url gen today now ext url custom db).result =
        Outcome.done ShortenResult.errInvalidUrl) := by
  by_cases he : pyStrip url = ""
  · simp [shorten_url, he]
  · simp [shorten_url, he, h]

/-- Exact semantics of the retry loop when every candidate collides: all the
fuel is consumed, one uniqueness SELECT per generated candidate. -/
lemma allocLoopF_all_taken (gen : Nat → String) (db : DB) :
    ∀ (fuel a : Nat), (∀ i, a ≤ i → i < a + fuel → dbExists db (gen i) = true) →
      allocLoopF gen db a fuel =
        (none, (List.range' a fuel).map (fun i => StoreOp.selectUrl (gen i))) := by
  intro fuel
  induction fuel with
  | zero => intro a _; rfl
  | succ n ih =>
    intro a h
    have ha : dbExists db (gen a) = true := h a (Nat.le_refl a) (by omega)
    have hrec := ih (a + 1) (fun i h1 h2 => h i (by omega) (by omega))
    simp [allocLoopF, ha, hrec, List.range']

/-- Exact semantics of the retry loop when candidate j is the first free
one: it stops there, having issued j+1 uniqueness SELECTs. -/
lemma allocLoopF_first_free (gen : Nat → String) (db : DB) :
    ∀ (fuel a j : Nat), a ≤ j → j < a + fuel →
      (∀ i, a ≤ i → i < j → dbExists db (gen i) = true) →
      dbExists db (gen j) = false →
      allocLoopF gen db a fuel =
        (some (gen j), (List.range' a (j - a + 1)).map (fun i => StoreOp.selectUrl (gen i))) := by
  intro fuel
  induction fuel with
  | zero => intro a j h1 h2 _ _; omega
  | succ n ih =>
    intro a j haj hlt htaken hfree
    by_cases hj : a = j
    · subst hj
      simp [allocLoopF, hfree, List.range']
    · have ha : dbExists db (gen a) = true := htaken a (Nat.le_refl a) (by omega)
      have hrec := ih (a + 1) j (by omega) (by omega)
        (fun i hi1 hi2 => htaken i (by omega) hi2) hfree
      have h2 : j - a = (j - (a + 1)) + 1 := by omega
      simp [allocLoopF, ha, hrec, h2, List.range']

/-- A row just inserted for code c makes the uniqueness check for c fire. -/
lemma dbExists_insert_self (db : DB) (c u : String) (now : Nat) :
    dbExists (dbInsertRow db c u now) c = true := by
  simp [dbExists, dbInsertRow]

/-- C1: every core operation returns to the caller in finite time.  The code
violates this: on the failing input below, shorten_url commits the mapping
and then calls update_daily_stats while still holding the module-level
non-reentrant threading.Lock; update_daily_stats tries to acquire the same
lock and blocks forever.  The same happens to every redirect of an existing
code after the click increment is committed. -/
theorem shorten_and_redirect_block_forever :
    (shorten_url gen0 "2026-10-12" 100 none "https://x.com" "" db0).result = Outcome.blocked
    ∧ (redirect_to_url "2026-10-12" "abc" dbAbc).result = Outcome.blocked
    ∧ update_daily_stats true "2026-10-12" 1 0 db0 = (Outcome.blocked : Outcome DB) := by
  decide

/-- C2: the per-mapping click increment and the daily totalClicks increment
commit together or not at all.  The code violates this: a redirect commits
the click increment in its own transaction and then deadlocks inside
update_daily_stats before the daily commit, so the read APIs observe
sum clicks = 1 with daily totalClicks = 0 (and one urls row with daily
urlsCreated = 0 after a shorten) indefinitely. -/
theorem redirect_click_and_daily_not_atomic :
    (redirect_to_url "2026-10-12" "abc" dbAbc).result = Outcome.blocked
    ∧ get_stats "2026-10-12" (redirect_to_url "2026-10-12" "abc" dbAbc).db = ⟨1, 1, 0, 0⟩
    ∧ sumClicks (redirect_to_url "2026-10-12" "abc" dbAbc).db = 1
    ∧ sumDailyClicks (redirect_to_url "2026-10-12" "abc" dbAbc).db = 0
    ∧ get_stats "2026-10-12" (shorten_url gen0 "2026-10-12" 100 none "https://x.com" "" db0).db
        = ⟨1, 0, 0, 0⟩
    ∧ sumDailyUrls (shorten_url gen0 "2026-10-12" 100 none "https://x.com" "" db0).db = 0 := by
  decide

/-- C3: when every uniqueness check reports taken, random allocation fails
with the exhaustion error after exactly 10 generated candidates (one SELECT
per candidate, no fewer, no more); and if candidate j < 10 is the first free
one, the loop stops there after exactly j+1 checks. -/
theorem random_alloc_exhausts_after_ten (gen : Nat → String) (today : String)
    (now : Nat) (ext : Option (String × String)) (url custom : String) (db : DB)
    (hurl : is_valid_url (pyStrip url) = true) (hcustom : pyStrip custom = "") :
    ((∀ i, i < 10 → dbExists db (gen i) = true) →
       shorten_url gen today now ext url custom db =
         ⟨Outcome.done ShortenResult.errExhausted, db,
          (List.range 10).map (fun i => StoreOp.selectUrl (gen i))⟩)
    ∧ (∀ j, j < 10 → (∀ i, i < j → dbExists db (gen i) = true) →
         dbExists db (gen j) = false →
         allocLoopF gen db 0 10 =
           (some (gen j), (List.range (j + 1)).map (fun i => StoreOp.selectUrl (gen i)))) := by
  constructor
  · intro hall
    have hne := is_valid_url_ne_empty _ hurl
    have hloop := allocLoopF_all_taken gen db 10 0 (fun i _ h2 => hall i (by omega))
    rw [List.range_eq_range']
    simp [shorten_url, hne, hurl, hcustom, hloop]
  · intro j hj htaken hfree
    have h := allocLoopF_first_free gen db 10 0 j (by omega) (by omega)
      (fun i _ h2 => htaken i h2) hfree
    rw [List.range_eq_range']
    simpa using h

/-- Witness for C3: with a constant generator whose candidate is taken, the
handler exhausts after the 10 SELECTs; on an empty store the loop stops at
the first candidate after one SELECT. -/
theorem random_alloc_exhausts_after_ten_witness :
    shorten_url gen0 "2026-10-12" 100 none "https://x.com" "" dbTaken =
      ⟨Outcome.done ShortenResult.errExhausted, dbTaken,
       (List.range 10).map (fun i => StoreOp.selectUrl (gen0 i))⟩
    ∧ allocLoopF gen0 db0 0 10 =
      (some (gen0 0), (List.range 1).map (fun i => StoreOp.selectUrl (gen0 i))) :=
  ⟨(random_alloc_exhausts_after_ten gen0 "2026-10-12" 100 none "https://x.com" "" dbTaken
      (by decide) (by decide)).1
      (fun i _ => (by decide : dbExists dbTaken "abc123" = true)),
   (random_alloc_exhausts_after_ten gen0 "2026-10-12" 100 none "https://x.com" "" db0
      (by decide) (by decide)).2 0 (by decide) (fun i h => absurd h (Nat.not_lt_zero i))
      (by decide)⟩

/-- C4 counterexample: a duplicate reported by the INSERT itself (race lost
to a concurrent process after the uniqueness check) is NOT retried on the
random path and does NOT surface as the exhaustion error: the IntegrityError
lands in the generic exception handler and is returned as a 500 server
error after a single insert attempt. -/
theorem insert_race_returns_server_error :
    shorten_url gen0 "2026-10-12" 100 (some ("abc123", "https://y.com")) "https://x.com" "" db0 =
      ⟨Outcome.done (ShortenResult.errServer dupMsg),
       dbInsertRow db0 "abc123" "https://y.com" 100,
       [StoreOp.selectUrl "abc123", StoreOp.insertUrl "abc123"]⟩ := by
  decide

/-- C4 as amended: when the INSERT hits the UNIQUE constraint, neither path
retries and neither path maps the failure to CodeTakenError or the
exhaustion error: both the custom path and the random path return the 500
server error carrying the constraint message, after exactly one insert
attempt. -/
theorem insert_duplicate_no_retry (gen : Nat → String) (today : String) (now : Nat)
    (url custom u2 : String) (db : DB)
    (hurl : is_valid_url (pyStrip url) = true) :
    (pyStrip custom ≠ "" → pyMatchCodeRegex (pyStrip custom) = true →
      (pyStrip custom).length ≤ 20 → dbExists db (pyStrip custom) = false →
      shorten_url gen today now (some (pyStrip custom, u2)) url custom db =
        ⟨Outcome.done (ShortenResult.errServer dupMsg),
         dbInsertRow db (pyStrip custom) u2 now,
         [StoreOp.selectUrl (pyStrip custom), StoreOp.insertUrl (pyStrip custom)]⟩)
    ∧ (pyStrip custom = "" → dbExists db (gen 0) = false →
      shorten_url gen today now (some (gen 0, u2)) url custom db =
        ⟨Outcome.done (ShortenResult.errServer dupMsg),
         dbInsertRow db (gen 0) u2 now,
         [StoreOp.selectUrl (gen 0), StoreOp.insertUrl (gen 0)]⟩) := by
  have hne := is_valid_url_ne_empty _ hurl
  constructor
  · intro hcne hm hlen hfree
    simp [shorten_url, hne, hurl, hcne, hm, Nat.not_lt.mpr hlen, hfree,
      insertStep, extApply, dbExists_insert_self]
  · intro hcempty hfree
    have hloop : allocLoopF gen db 0 10 = (some (gen 0), [StoreOp.selectUrl (gen 0)]) := by
      simp [allocLoopF, hfree]
    simp [shorten_url, hne, hurl, hcempty, hloop,
      insertStep, extApply, hfree, dbExists_insert_self]

/-- Witness for the amended C4 on both paths at concrete inputs. -/
theorem insert_duplicate_no_retry_witness :
    shorten_url gen0 "2026-10-12" 100 (some ("mycode", "https://y.com")) "https://x.com" "mycode" db0 =
      ⟨Outcome.done (ShortenResult.errServer dupMsg),
       dbInsertRow db0 "mycode" "https://y.com" 100,
       [StoreOp.selectUrl "mycode", StoreOp.insertUrl "mycode"]⟩
    ∧ shorten_url gen0 "2026-10-12" 100 (some ("abc123", "https://y.com")) "https://x.com" "" db0 =
      ⟨Outcome.done (ShortenResult.errServer dupMsg),
       dbInsertRow db0 "abc123" "https://y.com" 100,
       [StoreOp.selectUrl "abc123", StoreOp.insertUrl "abc123"]⟩ :=
  ⟨(insert_duplicate_no_retry gen0 "2026-10-12" 100 "https://x.com" "mycode" "https://y.com" db0
      (by decide)).1 (by decide) (by decide) (by decide) (by decide),
   (insert_duplicate_no_retry gen0 "2026-10-12" 100 "https://x.com" "" "https://y.com" db0
      (by decide)).2 (by decide) (by decide)⟩

/-- C5: URL validation itself matches the claim (the two invalid examples
are rejected with the invalid-URL error before any storage statement), but
the code violates the final example: Allocate of https://x.com commits the
mapping row and then blocks forever on the non-reentrant lock inside
update_daily_stats instead of returning success. -/
theorem url_validation_and_blocked_success :
    is_valid_url "not-a-url" = false
    ∧ is_valid_url "ftp://x.com" = false
    ∧ is_valid_url "https://x.com" = true
    ∧ shorten_url gen0 "2026-10-12" 100 none "not-a-url" "" db0 =
        ⟨Outcome.done ShortenResult.errInvalidUrl, db0, []⟩
    ∧ shorten_url gen0 "2026-10-12" 100 none "ftp://x.com" "" db0 =
        ⟨Outcome.done ShortenResult.errInvalidUrl, db0, []⟩
    ∧ (shorten_url gen0 "2026-10-12" 100 none "https://x.com" "" db0).db.urls =
        [⟨1, "abc123", "https://x.com", 0, 100⟩]
    ∧ (shorten_url gen0 "2026-10-12" 100 none "https://x.com" "" db0).result = Outcome.blocked := by
  decide

/-- C6: a stripped, supplied custom code is rejected with the format error
when it fails the regex, with the length error when longer than 20, with
CodeTakenError (store unchanged) when already present, and otherwise the
mapping is inserted and committed on the single attempt with no retry. -/
theorem custom_code_paths (gen : Nat → String) (today : String) (now : Nat)
    (url c : String) (db : DB)
    (hurl : is_valid_url (pyStrip url) = true)
    (hc : pyStrip c = c) (hne : c ≠ "") :
    (pyMatchCodeRegex c = false →
       shorten_url gen today now none url c db =
         ⟨Outcome.done ShortenResult.errInvalidCodeFormat, db, []⟩)
    ∧ (pyMatchCodeRegex c = true → c.length > 20 →
       shorten_url gen today now none url c db =
         ⟨Outcome.done ShortenResult.errCodeTooLong, db, []⟩)
    ∧ (pyMatchCodeRegex c = true → c.length ≤ 20 → dbExists db c = true →
       shorten_url gen today now none url c db =
         ⟨Outcome.done ShortenResult.errCodeTaken, db, [StoreOp.selectUrl c]⟩)
    ∧ (pyMatchCodeRegex c = true → c.length ≤ 20 → dbExists db c = false →
       shorten_url gen today now none url c db =
         ⟨Outcome.blocked, dbInsertRow db c (pyStrip url) now,
          [StoreOp.selectUrl c, StoreOp.insertUrl c, StoreOp.commitW]⟩) := by
  have hne' := is_valid_url_ne_empty _ hurl
  refine ⟨?_, ?_, ?_, ?_⟩
  · intro hm
    simp [shorten_url, hne', hurl, hc, hne, hm]
  · intro hm hlen
    simp [shorten_url, hne', hurl, hc, hne, hm, hlen]
  · intro hm hlen htaken
    simp [shorten_url, hne', hurl, hc, hne, hm, Nat.not_lt.mpr hlen, htaken]
  · intro hm hlen hfree
    simp [shorten_url, hne', hurl, hc, hne, hm, Nat.not_lt.mpr hlen, hfree,
      insertStep, extApply, update_daily_stats]

/-- Witness for C6: format rejection, taken rejection, and a successful
single-attempt insert at concrete inputs. -/
theorem custom_code_paths_witness :
    shorten_url gen0 "2026-10-12" 100 none "https://x.com" "bad code!" db0 =
      ⟨Outcome.done ShortenResult.errInvalidCodeFormat, db0, []⟩
    ∧ shorten_url gen0 "2026-10-12" 100 none "https://x.com" "abc" dbAbc =
      ⟨Outcome.done ShortenResult.errCodeTaken, dbAbc, [StoreOp.selectUrl "abc"]⟩
    ∧ shorten_url gen0 "2026-10-12" 100 none "https://x.com" "mycode" db0 =
      ⟨Outcome.blocked, dbInsertRow db0 "mycode" "https://x.com" 100,
       [StoreOp.selectUrl "mycode", StoreOp.insertUrl "mycode", StoreOp.commitW]⟩ :=
  ⟨(custom_code_paths gen0 "2026-10-12" 100 "https://x.com" "bad code!" db0
      (by decide) (by decide) (by decide)).1 (by decide),
   ((custom_code_paths gen0 "2026-10-12" 100 "https://x.com" "abc" dbAbc
      (by decide) (by decide) (by decide)).2.2.1 (by decide) (by decide) (by decide)),
   ((custom_code_paths gen0 "2026-10-12" 100 "https://x.com" "mycode" db0
      (by decide) (by decide) (by decide)).2.2.2 (by decide) (by decide) (by decide))⟩

/-- C7: after clear-all, both tables are empty, AggregateStats returns all
four fields zero, and the only admissible RecentMappings output is the
empty sequence. -/
theorem clear_all_resets_reads (db : DB) (today : String) (out : List UrlRow) :
    (clear_all_data db).2.urls = [] ∧ (clear_all_data db).2.daily = []
    ∧ get_stats today (clear_all_data db).2 = ⟨0, 0, 0, 0⟩
    ∧ (recentAdmissible (clear_all_data db).2 out → out = []) := by
  refine ⟨rfl, rfl, rfl, ?_⟩
  rintro ⟨perm, hp, _, hout⟩
  have hnil : perm = [] := List.perm_nil.mp hp.symm
  subst hnil
  simpa using hout

/-- Witness for C7 at a concrete non-empty store. -/
theorem clear_all_resets_reads_witness :
    get_stats "2026-10-12" (clear_all_data dbAbc).2 = ⟨0, 0, 0, 0⟩
    ∧ ([] : List UrlRow) = [] :=
  ⟨(clear_all_resets_reads dbAbc "2026-10-12" []).2.2.1,
   (clear_all_resets_reads dbAbc "2026-10-12" []).2.2.2
     ⟨[], List.Perm.refl _, List.Pairwise.nil, rfl⟩⟩

/-- C8 counterexample: with two mappings sharing one creation timestamp, the
output that keeps the earlier-created row first is admissible for
ORDER BY created_at DESC LIMIT 10, so the mapping created last (larger id)
is NOT guaranteed to appear first. -/
theorem recent_tie_order_not_guaranteed :
    recentAdmissible dbTie [rowT1, rowT2]
    ∧ rowT2 ∈ dbTie.urls ∧ rowT1.id < rowT2.id ∧ rowT1 ≠ rowT2
    ∧ [rowT1, rowT2].head? = some rowT1 := by
  refine ⟨⟨[rowT1, rowT2], List.Perm.refl _, by decide, rfl⟩, by decide, by decide,
    by decide, rfl⟩

/-- C8 as amended: every admissible RecentMappings output has at most 10
rows and is sorted by creation timestamp in nonincreasing order; the
relative order of rows sharing a timestamp is unspecified. -/
theorem recent_sorted_and_bounded (db : DB) (out : List UrlRow)
    (h : recentAdmissible db out) : sortedByTimeDesc out ∧ out.length ≤ 10 := by
  obtain ⟨perm, _, hs, rfl⟩ := h
  constructor
  · exact List.Pairwise.sublist (List.take_sublist 10 perm) hs
  · exact List.length_take_le 10 perm

/-- Witness for the amended C8 at the concrete tied store. -/
theorem recent_sorted_and_bounded_witness :
    sortedByTimeDesc [rowT1, rowT2] ∧ ([rowT1, rowT2] : List UrlRow).length ≤ 10 :=
  recent_sorted_and_bounded dbTie [rowT1, rowT2]
    ⟨[rowT1, rowT2], List.Perm.refl _, by decide, rfl⟩

/-- C9 counterexample: allocation exhaustion is returned with HTTP status
500, not a 4xx, and the generic 500 handler interpolates the internal
exception text into its message. -/
theorem exhaustion_returns_500 :
    (shorten_url gen0 "2026-10-12" 100 none "https://x.com" "" dbTaken).result =
      Outcome.done ShortenResult.errExhausted
    ∧ ShortenResult.httpStatus ShortenResult.errExhausted = 500
    ∧ ¬(400 ≤ ShortenResult.httpStatus ShortenResult.errExhausted ∧
        ShortenResult.httpStatus ShortenResult.errExhausted < 500)
    ∧ ShortenResult.errorMessage (ShortenResult.errServer dupMsg) =
        some ("Server error: " ++ dupMsg) := by
  decide

/-- C9 as amended: the three validation failures map to 400 with their
human-readable reasons; exhaustion maps to 500; storage/unexpected failures
map to 500 with a message that embeds the internal exception detail. -/
theorem error_status_mapping :
    ShortenResult.httpStatus ShortenResult.errUrlRequired = 400
    ∧ ShortenResult.httpStatus ShortenResult.errInvalidUrl = 400
    ∧ ShortenResult.httpStatus ShortenResult.errInvalidCodeFormat = 400
    ∧ ShortenResult.httpStatus ShortenResult.errCodeTooLong = 400
    ∧ ShortenResult.httpStatus ShortenResult.errCodeTaken = 400
    ∧ ShortenResult.errorMessage ShortenResult.errInvalidUrl =
        some "Invalid URL format. Must start with http:// or https://"
    ∧ ShortenResult.errorMessage ShortenResult.errInvalidCodeFormat =
        some "Custom code can only contain letters, numbers, hyphens, and underscores"
    ∧ ShortenResult.errorMessage ShortenResult.errCodeTaken =
        some "Custom code already exists. Please choose a different one."
    ∧ ShortenResult.httpStatus ShortenResult.errExhausted = 500
    ∧ (∀ d : String, ShortenResult.httpStatus (ShortenResult.errServer d) = 500)
    ∧ (∀ d : String, ShortenResult.errorMessage (ShortenResult.errServer d) =
        some ("Server error: " ++ d)) :=
  ⟨rfl, rfl, rfl, rfl, rfl, rfl, rfl, rfl, rfl, fun _ => rfl, fun _ => rfl⟩

/-- C10: a redirect request whose code fails the format regex is rejected
with the invalid-format error before any storage statement, with the store
unchanged and no click recorded; any request that issues a storage
statement, or that produces any other outcome, has a well-formed code. -/
theorem redirect_format_check_before_lookup (today code : String) (db : DB) :
    (pyMatchCodeRegex code = false →
       redirect_to_url today code db = ⟨Outcome.done RedirectResult.invalidFormat, db, []⟩)
    ∧ ((redirect_to_url today code db).ops ≠ [] → pyMatchCodeRegex code = true)
    ∧ ((redirect_to_url today code db).result ≠ Outcome.done RedirectResult.invalidFormat →
       pyMatchCodeRegex code = true) := by
  refine ⟨?_, ?_, ?_⟩
  · intro h
    simp [redirect_to_url, h]
  · intro hops
    by_cases h : pyMatchCodeRegex code = false
    · exact absurd (by simp [redirect_to_url, h]) hops
    · simpa using h
  · intro hres
    by_cases h : pyMatchCodeRegex code = false
    · exact absurd (by simp [redirect_to_url, h]) hres
    · simpa using h

/-- Witness for C10 at a concrete ill-formed code. -/
theorem redirect_format_check_witness :
    redirect_to_url "2026-10-12" "bad code!" db0 =
      ⟨Outcome.done RedirectResult.invalidFormat, db0, []⟩ :=
  (redirect_format_check_before_lookup "2026-10-12" "bad code!" db0).1 (by decide)

end Shortener
